import Mathlib

/-!
Shallow embedding of the cylinder/roll optimization engine of
`unificacion.py` (the "motor de cálculo": `evaluar_z_uniforme`,
`evaluar_rollo_estandar`, `calcular_metraje_material`,
`obtener_z_sugerido`, and the quantity coercion of `calcular_z_y_metraje`).

Python floats are modelled as rationals (`ℚ`), Python ints as `ℤ`/`ℕ`,
the result dictionaries as structures, and the `None` return value of
`obtener_z_sugerido` as an explicit constructor.  The formatted diagnostic
strings are modelled as inductive values carrying the numbers that the
Python code interpolates into them; no claim depends on the exact text.
-/

namespace Unificacion

/-- `FACTOR_CILINDRO_A_MM = 3.175` (Z a milímetros). -/
def FACTOR_CILINDRO_A_MM : ℚ := 3.175

/-- `ROLLO_BASE_MM = 330` (rollo estándar). -/
def ROLLO_BASE_MM : ℚ := 330

/-- `BANDERA_HORIZONTAL = 20` (mm de bandera, se restan del ancho útil). -/
def BANDERA_HORIZONTAL : ℚ := 20

/-- `GAP_HORIZONTAL_OBJETIVO = 2.7`. -/
def GAP_HORIZONTAL_OBJETIVO : ℚ := 2.7

/-- `GAP_VERTICAL_OBJETIVO = 2.7`. -/
def GAP_VERTICAL_OBJETIVO : ℚ := 2.7

/-- `GAP_VERTICAL_MIN = 2.5`. -/
def GAP_VERTICAL_MIN : ℚ := 2.5

/-- `GAP_VERTICAL_MAX = 20`. -/
def GAP_VERTICAL_MAX : ℚ := 20

/-- `MAX_REPETICIONES_VERTICALES = 8`. -/
def MAX_REPETICIONES_VERTICALES : ℕ := 8

/-- `AJUSTE_DESARROLLO_REP_MM = 0.75` (mm adicionales por repetición). -/
def AJUSTE_DESARROLLO_REP_MM : ℚ := 0.75

/-- `CILINDROS_FB`: the catalog `sorted([...], reverse=True)`, written out
in the descending order the Python `sorted` call produces. -/
def CILINDROS_FB : List ℤ :=
  [168, 129, 127, 122, 117, 116, 111, 108, 107, 105, 102, 99,
   97, 91, 88, 84, 80, 77, 74, 70, 67, 60]

/-- Diagnostic carried by `EvaluacionZUniforme.detalle` (a formatted string
in Python; modelled as a value carrying the interpolated numbers). -/
inductive DetalleZ where
  | desarrolloMenorQueAlto (desarrollo alto : ℚ)
  | ok
  | sinCombinacion
  deriving DecidableEq

/-- Resultado de evaluación de un Z particular (class `EvaluacionZUniforme`). -/
structure EvaluacionZUniforme where
  z : ℤ
  desarrollo_mm : ℚ
  n : ℕ
  gap : ℚ
  diff_obj : ℚ
  valido : Bool
  detalle : DetalleZ
  deriving DecidableEq

/-- The raw gap formula of line 166: `gap = (desarrollo - n * alto_etq) / n`. -/
def gapCrudo (desarrollo alto : ℚ) (n : ℕ) : ℚ :=
  (desarrollo - (n : ℚ) * alto) / (n : ℚ)

/-- The gap actually stored for a candidate repeat count: line 177 clamps the
`n = 1` gap up to `gap_min` (`gap = max(gap, gap_min)`); other repeat counts
keep the raw gap. -/
def gapAjustado (desarrollo alto gap_min : ℚ) (n : ℕ) : ℚ :=
  if n = 1 then max (gapCrudo desarrollo alto n) gap_min else gapCrudo desarrollo alto n

/-- Lines 182-189: replace the running best `(n, gap, diff)` by the candidate
when the candidate has more repeats, or equal repeats and smaller deviation
from the target gap, or equal deviation and smaller gap. -/
def elegirMejor (cand : ℕ × ℚ × ℚ) (mejor : Option (ℕ × ℚ × ℚ)) : Option (ℕ × ℚ × ℚ) :=
  match mejor with
  | none => some cand
  | some (n_best, gap_best, diff_best) =>
    if n_best < cand.1 ∨
        (cand.1 = n_best ∧ (cand.2.2 < diff_best ∨ (cand.2.2 = diff_best ∧ cand.2.1 < gap_best))) then
      some cand
    else mejor

/-- The `for n in range(1, max_n + 1)` loop of `evaluar_z_uniforme`
(lines 162-189), with its `break` (development below `n` labels), the two
`continue` filters, and the running best.  `fuel` is the number of loop
iterations still allowed, `n` the current repeat count. -/
def scanZ (desarrollo alto gap_obj gap_min gap_max : ℚ) :
    ℕ → ℕ → Option (ℕ × ℚ × ℚ) → Option (ℕ × ℚ × ℚ)
  | 0, _, mejor => mejor
  | fuel + 1, n, mejor =>
    if desarrollo < (n : ℚ) * alto then mejor
    else if gapCrudo desarrollo alto n < 0 then
      scanZ desarrollo alto gap_obj gap_min gap_max fuel (n + 1) mejor
    else if 1 < n ∧ (gapCrudo desarrollo alto n < gap_min ∨ gap_max < gapCrudo desarrollo alto n) then
      scanZ desarrollo alto gap_obj gap_min gap_max fuel (n + 1) mejor
    else
      scanZ desarrollo alto gap_obj gap_min gap_max fuel (n + 1)
        (elegirMejor
          (n, gapAjustado desarrollo alto gap_min n,
            |gapAjustado desarrollo alto gap_min n - gap_obj|) mejor)

/-- `evaluar_z_uniforme` (lines 136-195). -/
def evaluar_z_uniforme (z : ℤ) (alto_etq gap_obj gap_min gap_max : ℚ) (max_n : ℕ) :
    EvaluacionZUniforme :=
  let desarrollo := (z : ℚ) * FACTOR_CILINDRO_A_MM
  if desarrollo < alto_etq then
    ⟨z, desarrollo, 0, 0, 9999, false, .desarrolloMenorQueAlto desarrollo alto_etq⟩
  else
    match scanZ desarrollo alto_etq gap_obj gap_min gap_max max_n 1 none with
    | some (n_sel, gap_sel, diff_sel) => ⟨z, desarrollo, n_sel, gap_sel, diff_sel, true, .ok⟩
    | none => ⟨z, desarrollo, 0, 0, 9999, false, .sinCombinacion⟩

/-- Result dictionary of `evaluar_rollo_estandar`.  The two early-exit
dictionaries (lines 212 and 216) omit the `ancho_util` key, hence the
`Option` on that field. -/
structure ResultadoRollo where
  etq_eje : ℤ
  gap_entre : Option ℚ
  aprovechamiento_pct : ℚ
  ancho_util : Option ℚ
  deriving DecidableEq

/-- `evaluar_rollo_estandar` (lines 197-245).  `//` on Python floats is
floored division, and `int(...)` of the already-floored value is the same
integer, so `max(0, int(u // paso))` is `max 0 ⌊u / paso⌋`. -/
def evaluar_rollo_estandar (ancho_mm ancho_etq gap_h_usado bandera_mm : ℚ) : ResultadoRollo :=
  if ancho_mm ≤ 0 then ⟨0, none, 0, none⟩
  else
    let paso := ancho_etq + gap_h_usado
    if paso ≤ 0 then ⟨0, none, 0, none⟩
    else
      let ancho_util0 := max 0 (ancho_mm - bandera_mm)
      let etq_eje0 : ℤ := max 0 ⌊ancho_util0 / paso⌋
      let ancho_util := if etq_eje0 ≤ 0 then ancho_mm else ancho_util0
      let etq_eje : ℤ := if etq_eje0 ≤ 0 then max 0 ⌊ancho_mm / paso⌋ else etq_eje0
      if etq_eje ≤ 0 ∧ ancho_etq ≤ ancho_util then
        let gap_total := max 0 (ancho_util - ancho_etq)
        let aprov := if 0 < ancho_util then (1 : ℚ) * ancho_etq / ancho_util * 100 else 0
        ⟨1, some gap_total, aprov, some ancho_util⟩
      else
        let gap_total := max 0 (ancho_util - (etq_eje : ℚ) * ancho_etq)
        let gap_entre :=
          if 1 < etq_eje then some (gap_total / ((etq_eje : ℚ) - 1)) else none
        let aprov := if 0 < ancho_util then (etq_eje : ℚ) * ancho_etq / ancho_util * 100 else 0
        ⟨etq_eje, gap_entre, aprov, some ancho_util⟩

/-- Result dictionary of `calcular_metraje_material`. -/
structure Metraje where
  repeticiones_reales : ℚ
  ml : ℚ
  m2 : ℚ
  deriving DecidableEq

/-- `calcular_metraje_material` (lines 247-283). -/
def calcular_metraje_material (unidades etq_repeat : ℤ)
    (desarrollo_mm ancho_rollo_mm ajuste_mm : ℚ) : Metraje :=
  if etq_repeat ≤ 0 ∨ desarrollo_mm ≤ 0 ∨ ancho_rollo_mm ≤ 0 then ⟨0, 0, 0⟩
  else
    let repeticiones_reales : ℚ := (unidades : ℚ) / (etq_repeat : ℚ)
    let longitud_total_mm := repeticiones_reales * desarrollo_mm + repeticiones_reales * ajuste_mm
    let ml := longitud_total_mm / 1000
    let m2 := ml * (ancho_rollo_mm / 1000)
    ⟨repeticiones_reales, ml, m2⟩

/-- The `motivo_imposibilidad` strings of `obtener_z_sugerido`, modelled as
values carrying the interpolated measurements. -/
inductive Motivo where
  | altoNoCabe (alto : ℚ)
  | anchoNoCabe (ancho rollo : ℚ)
  | anchoNoCabeEstandar (ancho rollo : ℚ)
  deriving DecidableEq

/-- The solution dictionary built at lines 338-351 / 382-396.  Pass 1 builds
it without the `rollo_alternativo` key, modelled as `rollo_alternativo := false`. -/
structure Mejor where
  z : ℤ
  n : ℕ
  desarrollo_mm : ℚ
  gap_vertical : ℚ
  etq_eje : ℤ
  gap_horizontal_real : Option ℚ
  etq_repeat : ℤ
  repeticiones : ℚ
  ml : ℚ
  m2 : ℚ
  ancho_rollo_mm : ℚ
  es_valido : Bool
  rollo_alternativo : Bool
  deriving DecidableEq

/-- Mutable loop state of pass 1 of `obtener_z_sugerido`
(`mejor`, `motivo_imposibilidad`, `z_fallback`). -/
structure Paso1State where
  mejor : Option Mejor
  motivo : Option Motivo
  z_fallback : Option ℤ
  deriving DecidableEq

/-- One iteration of the pass-1 loop of `obtener_z_sugerido` (lines 306-351). -/
def paso1Step (alto_etq ancho_etq : ℚ) (unidades : ℤ) (ancho_rollo_mm : ℚ)
    (st : Paso1State) (z : ℤ) : Paso1State :=
  let ev_z := evaluar_z_uniforme z alto_etq GAP_VERTICAL_OBJETIVO GAP_VERTICAL_MIN
    GAP_VERTICAL_MAX MAX_REPETICIONES_VERTICALES
  if ev_z.valido = false then
    { st with motivo :=
        match st.motivo with
        | none => some (.altoNoCabe alto_etq)
        | some m => some m }
  else
    let ev_rollo := evaluar_rollo_estandar ancho_rollo_mm ancho_etq GAP_HORIZONTAL_OBJETIVO
      BANDERA_HORIZONTAL
    if ev_rollo.etq_eje ≤ 0 then
      match st.z_fallback with
      | none =>
        { st with
          z_fallback := some z
          motivo := some (.anchoNoCabe ancho_etq ancho_rollo_mm) }
      | some _ => st
    else
      let etq_repeat := (ev_z.n : ℤ) * ev_rollo.etq_eje
      let metraje := calcular_metraje_material unidades etq_repeat ev_z.desarrollo_mm
        ancho_rollo_mm AJUSTE_DESARROLLO_REP_MM
      let nuevo : Mejor :=
        { z := z
          n := ev_z.n
          desarrollo_mm := ev_z.desarrollo_mm
          gap_vertical := ev_z.gap
          etq_eje := ev_rollo.etq_eje
          gap_horizontal_real := ev_rollo.gap_entre
          etq_repeat := etq_repeat
          repeticiones := metraje.repeticiones_reales
          ml := metraje.ml
          m2 := metraje.m2
          ancho_rollo_mm := ancho_rollo_mm
          es_valido := true
          rollo_alternativo := false }
      match st.mejor with
      | none => { st with mejor := some nuevo }
      | some m => if metraje.ml < m.ml then { st with mejor := some nuevo } else st

/-- Pass 1 of `obtener_z_sugerido`: scan the whole catalog. -/
def paso1 (alto_etq ancho_etq : ℚ) (unidades : ℤ) (ancho_rollo_mm : ℚ) : Paso1State :=
  CILINDROS_FB.foldl (paso1Step alto_etq ancho_etq unidades ancho_rollo_mm) ⟨none, none, none⟩

/-- Mutable loop state of pass 2 (`mejor`, `z_fallback_330`,
`motivo_imposibilidad_330`); `mejor` is `None` when pass 2 starts. -/
structure Paso2State where
  mejor : Option Mejor
  z_fallback_330 : Option ℤ
  motivo_330 : Option Motivo
  deriving DecidableEq

/-- One iteration of the pass-2 loop of `obtener_z_sugerido` (lines 362-396),
which repeats the scan with `ROLLO_BASE_MM` and sets `rollo_alternativo`. -/
def paso2Step (alto_etq ancho_etq : ℚ) (unidades : ℤ) (st : Paso2State) (z : ℤ) : Paso2State :=
  let ev_z := evaluar_z_uniforme z alto_etq GAP_VERTICAL_OBJETIVO GAP_VERTICAL_MIN
    GAP_VERTICAL_MAX MAX_REPETICIONES_VERTICALES
  if ev_z.valido = false then st
  else
    let ev_rollo := evaluar_rollo_estandar ROLLO_BASE_MM ancho_etq GAP_HORIZONTAL_OBJETIVO
      BANDERA_HORIZONTAL
    if ev_rollo.etq_eje ≤ 0 then
      match st.z_fallback_330 with
      | none =>
        { st with
          z_fallback_330 := some z
          motivo_330 := some (.anchoNoCabeEstandar ancho_etq ROLLO_BASE_MM) }
      | some _ => st
    else
      let etq_repeat := (ev_z.n : ℤ) * ev_rollo.etq_eje
      let metraje := calcular_metraje_material unidades etq_repeat ev_z.desarrollo_mm
        ROLLO_BASE_MM AJUSTE_DESARROLLO_REP_MM
      let nuevo : Mejor :=
        { z := z
          n := ev_z.n
          desarrollo_mm := ev_z.desarrollo_mm
          gap_vertical := ev_z.gap
          etq_eje := ev_rollo.etq_eje
          gap_horizontal_real := ev_rollo.gap_entre
          etq_repeat := etq_repeat
          repeticiones := metraje.repeticiones_reales
          ml := metraje.ml
          m2 := metraje.m2
          ancho_rollo_mm := ROLLO_BASE_MM
          es_valido := true
          rollo_alternativo := true }
      match st.mejor with
      | none => { st with mejor := some nuevo }
      | some m => if metraje.ml < m.ml then { st with mejor := some nuevo } else st

/-- Pass 2 of `obtener_z_sugerido`. -/
def paso2 (alto_etq ancho_etq : ℚ) (unidades : ℤ) : Paso2State :=
  CILINDROS_FB.foldl (paso2Step alto_etq ancho_etq unidades) ⟨none, none, none⟩

/-- Return value of `obtener_z_sugerido`: the valid solution dictionary, the
`es_valido = False` fallback dictionary (whose `motivo_imposibilidad` entry is
an `Option`, mirroring that line 403 copies a possibly-`None` variable and its
`gap_horizontal_real` entry is the literal `0` sentinel), or bare `None`. -/
inductive ResultadoZ where
  | solucion (m : Mejor)
  | imposible (z : ℤ) (ancho_rollo_mm : ℚ) (motivo : Option Motivo)
  | nada
  deriving DecidableEq

/-- `obtener_z_sugerido` (lines 285-421). -/
def obtener_z_sugerido (alto_etq ancho_etq : ℚ) (unidades : ℤ)
    (ancho_rollo_opt : Option ℚ) : ResultadoZ :=
  let ancho_rollo_mm := ancho_rollo_opt.getD ROLLO_BASE_MM
  let st := paso1 alto_etq ancho_etq unidades ancho_rollo_mm
  match st.mejor with
  | some m => .solucion m
  | none =>
    let res330 : Option ResultadoZ :=
      if ancho_rollo_mm ≠ ROLLO_BASE_MM then
        let st2 := paso2 alto_etq ancho_etq unidades
        match st2.mejor with
        | some m => some (.solucion m)
        | none =>
          match st2.z_fallback_330 with
          | some zf => some (.imposible zf ROLLO_BASE_MM st2.motivo_330)
          | none => none
      else none
    match res330 with
    | some r => r
    | none =>
      match st.z_fallback, st.motivo with
      | some zf, some m => .imposible zf ancho_rollo_mm (some m)
      | _, _ => .nada

/-- The quantity coercion of the caller `calcular_z_y_metraje` (line 1256):
`max(1, int(x)) if x > 0 else 1`; `int()` truncates toward zero, which on a
positive value is the floor. -/
def unidades_para_calculo (etiquetas_a_producir : ℚ) : ℤ :=
  if 0 < etiquetas_a_producir then max 1 ⌊etiquetas_a_producir⌋ else 1

/-- The engine invocation of `calcular_z_y_metraje` (lines 1252-1259): coerce
the quantity, then call `obtener_z_sugerido`. -/
def calcular_z_y_metraje (alto ancho etiquetas_a_producir : ℚ)
    (ancho_rollo_opt : Option ℚ) : ResultadoZ :=
  obtener_z_sugerido alto ancho (unidades_para_calculo etiquetas_a_producir) ancho_rollo_opt

/-! ### Helper lemmas -/

/-- A cylinder whose vertical evaluation is invalid only (possibly) updates
`motivo` in pass 1: `mejor` and `z_fallback` are untouched. -/
lemma paso1Step_invalido (alto ancho : ℚ) (u : ℤ) (w : ℚ) (st : Paso1State) (z : ℤ)
    (hz : (evaluar_z_uniforme z alto GAP_VERTICAL_OBJETIVO GAP_VERTICAL_MIN
      GAP_VERTICAL_MAX MAX_REPETICIONES_VERTICALES).valido = false) :
    (paso1Step alto ancho u w st z).mejor = st.mejor ∧
      (paso1Step alto ancho u w st z).z_fallback = st.z_fallback := by
  simp [paso1Step, hz]

/-- A cylinder whose vertical evaluation is invalid is skipped by pass 2. -/
lemma paso2Step_invalido (alto ancho : ℚ) (u : ℤ) (st : Paso2State) (z : ℤ)
    (hz : (evaluar_z_uniforme z alto GAP_VERTICAL_OBJETIVO GAP_VERTICAL_MIN
      GAP_VERTICAL_MAX MAX_REPETICIONES_VERTICALES).valido = false) :
    paso2Step alto ancho u st z = st := by
  simp [paso2Step, hz]

/-- If every scanned cylinder is vertically invalid, pass 1 keeps `mejor`
and `z_fallback` unchanged. -/
lemma foldl_paso1_invalido (alto ancho : ℚ) (u : ℤ) (w : ℚ) (zs : List ℤ) :
    ∀ st : Paso1State,
      (∀ z ∈ zs, (evaluar_z_uniforme z alto GAP_VERTICAL_OBJETIVO GAP_VERTICAL_MIN
        GAP_VERTICAL_MAX MAX_REPETICIONES_VERTICALES).valido = false) →
      (zs.foldl (paso1Step alto ancho u w) st).mejor = st.mejor ∧
        (zs.foldl (paso1Step alto ancho u w) st).z_fallback = st.z_fallback := by
  induction zs with
  | nil => intro st _; exact ⟨rfl, rfl⟩
  | cons z zs ih =>
    intro st h
    have hz := h z (by simp)
    have hstep := paso1Step_invalido alto ancho u w st z hz
    have hrest := ih (paso1Step alto ancho u w st z) (fun a ha => h a (by simp [ha]))
    simp only [List.foldl_cons]
    exact ⟨hrest.1.trans hstep.1, hrest.2.trans hstep.2⟩

/-- If every scanned cylinder is vertically invalid, pass 2 is a no-op. -/
lemma foldl_paso2_invalido (alto ancho : ℚ) (u : ℤ) (zs : List ℤ) :
    ∀ st : Paso2State,
      (∀ z ∈ zs, (evaluar_z_uniforme z alto GAP_VERTICAL_OBJETIVO GAP_VERTICAL_MIN
        GAP_VERTICAL_MAX MAX_REPETICIONES_VERTICALES).valido = false) →
      zs.foldl (paso2Step alto ancho u) st = st := by
  induction zs with
  | nil => intro st _; rfl
  | cons z zs ih =>
    intro st h
    have hz := h z (by simp)
    simp only [List.foldl_cons, paso2Step_invalido alto ancho u st z hz]
    exact ih st (fun a ha => h a (by simp [ha]))

/-- Pass 2 sets `z_fallback_330` and `motivo_330` together, so the former
being present implies the latter is. -/
lemma foldl_paso2_fb_motivo (alto ancho : ℚ) (u : ℤ) (zs : List ℤ) :
    ∀ st : Paso2State,
      (st.z_fallback_330.isSome → st.motivo_330.isSome) →
      ((zs.foldl (paso2Step alto ancho u) st).z_fallback_330.isSome →
        (zs.foldl (paso2Step alto ancho u) st).motivo_330.isSome) := by
  induction zs with
  | nil => intro st h; exact h
  | cons z zs ih =>
    intro st h
    simp only [List.foldl_cons]
    refine ih (paso2Step alto ancho u st z) ?_
    simp only [paso2Step]
    split
    · exact h
    · split
      · split
        · simp
        · exact h
      · split
        · exact h
        · split
          · exact h
          · exact h

/-- The feasible repeat counts described by claim C3: `k` between 1 and the
repeat bound, `k` label heights fitting in the development, a non-negative
raw gap, and — for `k > 1` — a raw gap within `[gap_min, gap_max]`. -/
def FeasN (desarrollo alto gap_min gap_max : ℚ) (max_n k : ℕ) : Prop :=
  1 ≤ k ∧ k ≤ max_n ∧ (k : ℚ) * alto ≤ desarrollo ∧ 0 ≤ gapCrudo desarrollo alto k ∧
    (1 < k → gap_min ≤ gapCrudo desarrollo alto k ∧ gapCrudo desarrollo alto k ≤ gap_max)

lemma elegirMejor_none (cand : ℕ × ℚ × ℚ) : elegirMejor cand none = some cand := rfl

lemma elegirMejor_lt (cand : ℕ × ℚ × ℚ) (nb : ℕ) (gb db : ℚ) (h : nb < cand.1) :
    elegirMejor cand (some (nb, gb, db)) = some cand := by
  simp [elegirMejor, h]

/-- Invariant of the vertical scan: starting at repeat count `n` with a
running best that is the feasible maximum among `1 ≤ k < n` (or `none` when
no such `k` is feasible), the scan ends with the feasible maximum among all
repeat counts, carrying the clamped gap of the winner, or `none` when no
repeat count is feasible at all. -/
lemma scanZ_spec (desarrollo alto gap_obj gap_min gap_max : ℚ) (max_n : ℕ)
    (halto : 0 < alto) :
    ∀ (fuel : ℕ), ∀ (n : ℕ) (mejor : Option (ℕ × ℚ × ℚ)),
      n + fuel = max_n + 1 → 1 ≤ n →
      ((mejor = none ∧ ∀ k, k < n → ¬FeasN desarrollo alto gap_min gap_max max_n k) ∨
        (∃ nb gb db, mejor = some (nb, gb, db) ∧
          FeasN desarrollo alto gap_min gap_max max_n nb ∧ nb < n ∧
          gb = gapAjustado desarrollo alto gap_min nb ∧
          ∀ k, k < n → FeasN desarrollo alto gap_min gap_max max_n k → k ≤ nb)) →
      ((scanZ desarrollo alto gap_obj gap_min gap_max fuel n mejor = none ∧
          ∀ k, ¬FeasN desarrollo alto gap_min gap_max max_n k) ∨
        (∃ nb gb db,
          scanZ desarrollo alto gap_obj gap_min gap_max fuel n mejor = some (nb, gb, db) ∧
          FeasN desarrollo alto gap_min gap_max max_n nb ∧
          gb = gapAjustado desarrollo alto gap_min nb ∧
          ∀ k, FeasN desarrollo alto gap_min gap_max max_n k → k ≤ nb)) := by
  intro fuel
  induction fuel with
  | zero =>
    intro n mejor hfuel hn hinv
    have hmax : max_n < n := by omega
    rcases hinv with ⟨hm, hall⟩ | ⟨nb, gb, db, hm, hF, _, hgb, hbest⟩
    · refine Or.inl ⟨by simpa [scanZ] using hm, fun k hF => ?_⟩
      exact hall k (lt_of_le_of_lt hF.2.1 hmax) hF
    · exact Or.inr ⟨nb, gb, db, by simpa [scanZ] using hm, hF, hgb,
        fun k hFk => hbest k (lt_of_le_of_lt hFk.2.1 hmax) hFk⟩
  | succ fuel ih =>
    intro n mejor hfuel hn hinv
    simp only [scanZ]
    by_cases hb : desarrollo < (n : ℚ) * alto
    · rw [if_pos hb]
      have hge : ∀ k, n ≤ k → ¬FeasN desarrollo alto gap_min gap_max max_n k := by
        intro k hk hF
        have hc : (n : ℚ) ≤ (k : ℚ) := by exact_mod_cast hk
        have h1 : (n : ℚ) * alto ≤ (k : ℚ) * alto :=
          mul_le_mul_of_nonneg_right hc (le_of_lt halto)
        have := hF.2.2.1
        linarith
      rcases hinv with ⟨hm, hall⟩ | ⟨nb, gb, db, hm, hF, _, hgb, hbest⟩
      · refine Or.inl ⟨hm, fun k hF => ?_⟩
        rcases lt_or_le k n with hk | hk
        · exact hall k hk hF
        · exact hge k hk hF
      · refine Or.inr ⟨nb, gb, db, hm, hF, hgb, fun k hFk => ?_⟩
        rcases lt_or_le k n with hk | hk
        · exact hbest k hk hFk
        · exact absurd hFk (hge k hk)
    · rw [if_neg hb]
      by_cases hg : gapCrudo desarrollo alto n < 0
      · rw [if_pos hg]
        have hnF : ¬FeasN desarrollo alto gap_min gap_max max_n n := by
          intro hF
          exact absurd hF.2.2.2.1 (not_le.mpr hg)
        refine ih (n + 1) mejor (by omega) (by omega) ?_
        rcases hinv with ⟨hm, hall⟩ | ⟨nb, gb, db, hm, hF, hlt, hgb, hbest⟩
        · refine Or.inl ⟨hm, fun k hk hF => ?_⟩
          rcases Nat.lt_succ_iff_lt_or_eq.mp hk with hk | hk
          · exact hall k hk hF
          · exact hnF (hk ▸ hF)
        · refine Or.inr ⟨nb, gb, db, hm, hF, by omega, hgb, fun k hk hFk => ?_⟩
          rcases Nat.lt_succ_iff_lt_or_eq.mp hk with hk | hk
          · exact hbest k hk hFk
          · exact absurd (hk ▸ hFk) hnF
      · rw [if_neg hg]
        by_cases hr : 1 < n ∧ (gapCrudo desarrollo alto n < gap_min ∨
            gap_max < gapCrudo desarrollo alto n)
        · rw [if_pos hr]
          have hnF : ¬FeasN desarrollo alto gap_min gap_max max_n n := by
            intro hF
            rcases hF.2.2.2.2 hr.1 with ⟨hlo, hhi⟩
            rcases hr.2 with h | h
            · exact absurd hlo (not_le.mpr h)
            · exact absurd hhi (not_le.mpr h)
          refine ih (n + 1) mejor (by omega) (by omega) ?_
          rcases hinv with ⟨hm, hall⟩ | ⟨nb, gb, db, hm, hF, hlt, hgb, hbest⟩
          · refine Or.inl ⟨hm, fun k hk hF => ?_⟩
            rcases Nat.lt_succ_iff_lt_or_eq.mp hk with hk | hk
            · exact hall k hk hF
            · exact hnF (hk ▸ hF)
          · refine Or.inr ⟨nb, gb, db, hm, hF, by omega, hgb, fun k hk hFk => ?_⟩
            rcases Nat.lt_succ_iff_lt_or_eq.mp hk with hk | hk
            · exact hbest k hk hFk
            · exact absurd (hk ▸ hFk) hnF
        · rw [if_neg hr]
          have hFn : FeasN desarrollo alto gap_min gap_max max_n n := by
            refine ⟨hn, by omega, not_lt.mp hb, not_lt.mp hg, fun h1n => ?_⟩
            rcases not_and_or.mp hr with h | h
            · exact absurd h1n h
            · rcases not_or.mp h with ⟨hlo, hhi⟩
              exact ⟨not_lt.mp hlo, not_lt.mp hhi⟩
          have hsel : elegirMejor
              (n, gapAjustado desarrollo alto gap_min n,
                |gapAjustado desarrollo alto gap_min n - gap_obj|) mejor =
              some (n, gapAjustado desarrollo alto gap_min n,
                |gapAjustado desarrollo alto gap_min n - gap_obj|) := by
            rcases hinv with ⟨hm, _⟩ | ⟨nb, gb, db, hm, _, hlt, _, _⟩
            · rw [hm]; rfl
            · rw [hm]
              exact elegirMejor_lt _ nb gb db hlt
          rw [hsel]
          refine ih (n + 1) _ (by omega) (by omega) (Or.inr ⟨n,
            gapAjustado desarrollo alto gap_min n,
            |gapAjustado desarrollo alto gap_min n - gap_obj|, rfl, hFn, by omega, rfl,
            fun k _ _ => by omega⟩)

/-- Shape of the horizontal-fit result once the two degenerate-input guards
have passed: the reported usable width is positive, and the result is either
the forced single column (label fits, one-sided gap) or carries
`across = ⌊usable / (width + gap)⌋ ≥ 0` with an interior-split gap only when
`across > 1`. -/
lemma rollo_estructura (w lw g b : ℚ) (hw : 0 < w) (hp : 0 < lw + g) :
    ∃ u : ℚ, 0 < u ∧ (evaluar_rollo_estandar w lw g b).ancho_util = some u ∧
      (((evaluar_rollo_estandar w lw g b).etq_eje = 1 ∧ lw ≤ u ∧
          (evaluar_rollo_estandar w lw g b).gap_entre = some (max 0 (u - lw))) ∨
        ((evaluar_rollo_estandar w lw g b).etq_eje = ⌊u / (lw + g)⌋ ∧
          0 ≤ ⌊u / (lw + g)⌋ ∧
          ((evaluar_rollo_estandar w lw g b).gap_entre = none ∨
            1 < (evaluar_rollo_estandar w lw g b).etq_eje))) := by
  have ha1 : (0 : ℤ) ≤ ⌊max 0 (w - b) / (lw + g)⌋ :=
    Int.floor_nonneg.mpr (div_nonneg (le_max_left _ _) hp.le)
  have ha2 : (0 : ℤ) ≤ ⌊w / (lw + g)⌋ :=
    Int.floor_nonneg.mpr (div_nonneg hw.le hp.le)
  simp only [evaluar_rollo_estandar, if_neg (not_le.mpr hw), if_neg (not_le.mpr hp),
    max_eq_right ha1, max_eq_right ha2]
  by_cases hz1 : ⌊max 0 (w - b) / (lw + g)⌋ ≤ 0
  · simp only [if_pos hz1]
    by_cases hz2 : ⌊w / (lw + g)⌋ ≤ 0
    · have hz2e : ⌊w / (lw + g)⌋ = 0 := le_antisymm hz2 ha2
      by_cases hfit : lw ≤ w
      · refine ⟨w, hw, ?_⟩
        simp [hz2e, hfit]
      · refine ⟨w, hw, ?_⟩
        simp only [hz2e]
        rw [if_neg (by exact fun hc => hfit hc.2)]
        refine ⟨rfl, Or.inr ⟨rfl, by simp [hz2e], Or.inl ?_⟩⟩
        norm_num
    · rw [if_neg (by exact fun hc => hz2 hc.1)]
      refine ⟨w, hw, rfl, Or.inr ⟨rfl, ha2, ?_⟩⟩
      by_cases h1e : 1 < ⌊w / (lw + g)⌋
      · exact Or.inr h1e
      · exact Or.inl (by rw [if_neg h1e])
  · simp only [if_neg hz1]
    have h1le : 1 ≤ ⌊max 0 (w - b) / (lw + g)⌋ := by omega
    have hup : lw + g ≤ max 0 (w - b) := by
      have := Int.le_floor.mp h1le
      rw [le_div_iff₀ hp] at this
      simpa using this
    have hu0 : 0 < max 0 (w - b) := lt_of_lt_of_le hp hup
    rw [if_neg (by exact fun hc => hz1 hc.1)]
    refine ⟨max 0 (w - b), hu0, rfl, Or.inr ⟨rfl, ha1, ?_⟩⟩
    by_cases h1e : 1 < ⌊max 0 (w - b) / (lw + g)⌋
    · exact Or.inr h1e
    · exact Or.inl (by rw [if_neg h1e])

/-- Whether an `OptimizationOutcome` is a solution. -/
def esSolucion : ResultadoZ → Bool
  | .solucion _ => true
  | _ => false

/-- The `used_fallback_roll` flag of an outcome (`rollo_alternativo` of the
solution dictionary; infeasibility and `None` outcomes never carry it). -/
def usaRolloAlternativo : ResultadoZ → Bool
  | .solucion m => m.rollo_alternativo
  | _ => false

/-- The roll width an outcome reports (`ancho_rollo_mm`). -/
def anchoRolloUsado : ResultadoZ → Option ℚ
  | .solucion m => some m.ancho_rollo_mm
  | .imposible _ w _ => some w
  | .nada => none

/-- Every solution record pass 1 installs has `rollo_alternativo = false`. -/
lemma paso1Step_rollo (alto ancho : ℚ) (u : ℤ) (w : ℚ) (st : Paso1State) (z : ℤ)
    (hst : ∀ m, st.mejor = some m → m.rollo_alternativo = false) :
    ∀ m, (paso1Step alto ancho u w st z).mejor = some m → m.rollo_alternativo = false := by
  intro m hm
  simp only [paso1Step] at hm
  split at hm
  · exact hst m hm
  · split at hm
    · split at hm
      · exact hst m hm
      · exact hst m hm
    · split at hm
      · simp only [Option.some.injEq] at hm
        subst hm
        rfl
      · split at hm
        · simp only [Option.some.injEq] at hm
          subst hm
          rfl
        · exact hst m hm

lemma foldl_paso1_rollo (alto ancho : ℚ) (u : ℤ) (w : ℚ) (zs : List ℤ) :
    ∀ st : Paso1State, (∀ m, st.mejor = some m → m.rollo_alternativo = false) →
      ∀ m, (zs.foldl (paso1Step alto ancho u w) st).mejor = some m →
        m.rollo_alternativo = false := by
  induction zs with
  | nil => intro st hst; exact hst
  | cons z zs ih =>
    intro st hst
    simp only [List.foldl_cons]
    exact ih (paso1Step alto ancho u w st z) (paso1Step_rollo alto ancho u w st z hst)

/-- Every solution record pass 2 installs has `rollo_alternativo = true` and
uses the standard roll width. -/
lemma paso2Step_rollo (alto ancho : ℚ) (u : ℤ) (st : Paso2State) (z : ℤ)
    (hst : ∀ m, st.mejor = some m →
      m.rollo_alternativo = true ∧ m.ancho_rollo_mm = ROLLO_BASE_MM) :
    ∀ m, (paso2Step alto ancho u st z).mejor = some m →
      m.rollo_alternativo = true ∧ m.ancho_rollo_mm = ROLLO_BASE_MM := by
  intro m hm
  simp only [paso2Step] at hm
  split at hm
  · exact hst m hm
  · split at hm
    · split at hm
      · exact hst m hm
      · exact hst m hm
    · split at hm
      · simp only [Option.some.injEq] at hm
        subst hm
        exact ⟨rfl, rfl⟩
      · split at hm
        · simp only [Option.some.injEq] at hm
          subst hm
          exact ⟨rfl, rfl⟩
        · exact hst m hm

lemma foldl_paso2_rollo (alto ancho : ℚ) (u : ℤ) (zs : List ℤ) :
    ∀ st : Paso2State, (∀ m, st.mejor = some m →
        m.rollo_alternativo = true ∧ m.ancho_rollo_mm = ROLLO_BASE_MM) →
      ∀ m, (zs.foldl (paso2Step alto ancho u) st).mejor = some m →
        m.rollo_alternativo = true ∧ m.ancho_rollo_mm = ROLLO_BASE_MM := by
  induction zs with
  | nil => intro st hst; exact hst
  | cons z zs ih =>
    intro st hst
    simp only [List.foldl_cons]
    exact ih (paso2Step alto ancho u st z) (paso2Step_rollo alto ancho u st z hst)

/-- Doubling the quantity doubles the three outputs of the material-usage
calculator and nothing else. -/
lemma metraje_doble (u e : ℤ) (d w a : ℚ) :
    calcular_metraje_material (2 * u) e d w a =
      ⟨2 * (calcular_metraje_material u e d w a).repeticiones_reales,
        2 * (calcular_metraje_material u e d w a).ml,
        2 * (calcular_metraje_material u e d w a).m2⟩ := by
  by_cases hg : e ≤ 0 ∨ d ≤ 0 ∨ w ≤ 0
  · simp [calcular_metraje_material, if_pos hg]
  · simp only [calcular_metraje_material, if_neg hg, Metraje.mk.injEq]
    refine ⟨?_, ?_, ?_⟩ <;> push_cast <;> ring

/-- Scaling a solution record by quantity factor 2: revolutions, linear
meters and area double, the layout is untouched. -/
def escalaMejor (m : Mejor) : Mejor :=
  { m with
    repeticiones := 2 * m.repeticiones
    ml := 2 * m.ml
    m2 := 2 * m.m2 }

/-- Scaling an outcome by quantity factor 2 (infeasibility outcomes carry no
material figures and are unchanged). -/
def escalaResultado : ResultadoZ → ResultadoZ
  | .solucion m => .solucion (escalaMejor m)
  | r => r

lemma paso1Step_doble (alto ancho : ℚ) (u : ℤ) (w : ℚ) (st : Paso1State) (z : ℤ) :
    paso1Step alto ancho (2 * u) w { st with mejor := st.mejor.map escalaMejor } z =
      { paso1Step alto ancho u w st z with
        mejor := (paso1Step alto ancho u w st z).mejor.map escalaMejor } := by
  cases hsm : st.mejor with
  | none =>
    simp only [paso1Step, hsm, Option.map_none']
    split
    · simp [hsm]
    · split
      · split
        · simp [hsm]
        · simp [hsm]
      · simp [hsm, metraje_doble, escalaMejor]
  | some m =>
    simp only [paso1Step, hsm, Option.map_some']
    split
    · simp [hsm]
    · split
      · split
        · simp [hsm]
        · simp [hsm]
      · by_cases hlt : (calcular_metraje_material u ((evaluar_z_uniforme z alto
            GAP_VERTICAL_OBJETIVO GAP_VERTICAL_MIN GAP_VERTICAL_MAX
            MAX_REPETICIONES_VERTICALES).n * (evaluar_rollo_estandar w ancho
            GAP_HORIZONTAL_OBJETIVO BANDERA_HORIZONTAL).etq_eje)
            (evaluar_z_uniforme z alto GAP_VERTICAL_OBJETIVO GAP_VERTICAL_MIN
              GAP_VERTICAL_MAX MAX_REPETICIONES_VERTICALES).desarrollo_mm
            w AJUSTE_DESARROLLO_REP_MM).ml < m.ml
        · rw [if_pos hlt, if_pos (show (calcular_metraje_material (2 * u) _ _ _ _).ml <
              (escalaMejor m).ml from by
            rw [metraje_doble]
            exact (mul_lt_mul_left (by norm_num : (0:ℚ) < 2)).mpr hlt)]
          simp [hsm, metraje_doble, escalaMejor]
        · rw [if_neg hlt, if_neg (show ¬(calcular_metraje_material (2 * u) _ _ _ _).ml <
              (escalaMejor m).ml from by
            rw [metraje_doble]
            exact fun hc =>
              hlt ((mul_lt_mul_left (by norm_num : (0:ℚ) < 2)).mp hc))]
          simp [hsm]

lemma foldl_paso1_doble (alto ancho : ℚ) (u : ℤ) (w : ℚ) (zs : List ℤ) :
    ∀ st : Paso1State,
      zs.foldl (paso1Step alto ancho (2 * u) w) { st with mejor := st.mejor.map escalaMejor } =
        { zs.foldl (paso1Step alto ancho u w) st with
          mejor := (zs.foldl (paso1Step alto ancho u w) st).mejor.map escalaMejor } := by
  induction zs with
  | nil => intro st; rfl
  | cons z zs ih =>
    intro st
    simp only [List.foldl_cons, paso1Step_doble]
    exact ih (paso1Step alto ancho u w st z)

lemma paso1_doble (alto ancho : ℚ) (u : ℤ) (w : ℚ) :
    paso1 alto ancho (2 * u) w =
      { paso1 alto ancho u w with
        mejor := (paso1 alto ancho u w).mejor.map escalaMejor } := by
  have h := foldl_paso1_doble alto ancho u w CILINDROS_FB ⟨none, none, none⟩
  simpa [paso1] using h

lemma paso2Step_doble (alto ancho : ℚ) (u : ℤ) (st : Paso2State) (z : ℤ) :
    paso2Step alto ancho (2 * u) { st with mejor := st.mejor.map escalaMejor } z =
      { paso2Step alto ancho u st z with
        mejor := (paso2Step alto ancho u st z).mejor.map escalaMejor } := by
  cases hsm : st.mejor with
  | none =>
    simp only [paso2Step, hsm, Option.map_none']
    split
    · simp [hsm]
    · split
      · split
        · simp [hsm]
        · simp [hsm]
      · simp [hsm, metraje_doble, escalaMejor]
  | some m =>
    simp only [paso2Step, hsm, Option.map_some']
    split
    · simp [hsm]
    · split
      · split
        · simp [hsm]
        · simp [hsm]
      · by_cases hlt : (calcular_metraje_material u ((evaluar_z_uniforme z alto
            GAP_VERTICAL_OBJETIVO GAP_VERTICAL_MIN GAP_VERTICAL_MAX
            MAX_REPETICIONES_VERTICALES).n * (evaluar_rollo_estandar ROLLO_BASE_MM ancho
            GAP_HORIZONTAL_OBJETIVO BANDERA_HORIZONTAL).etq_eje)
            (evaluar_z_uniforme z alto GAP_VERTICAL_OBJETIVO GAP_VERTICAL_MIN
              GAP_VERTICAL_MAX MAX_REPETICIONES_VERTICALES).desarrollo_mm
            ROLLO_BASE_MM AJUSTE_DESARROLLO_REP_MM).ml < m.ml
        · rw [if_pos hlt, if_pos (show (calcular_metraje_material (2 * u) _ _ _ _).ml <
              (escalaMejor m).ml from by
            rw [metraje_doble]
            exact (mul_lt_mul_left (by norm_num : (0:ℚ) < 2)).mpr hlt)]
          simp [hsm, metraje_doble, escalaMejor]
        · rw [if_neg hlt, if_neg (show ¬(calcular_metraje_material (2 * u) _ _ _ _).ml <
              (escalaMejor m).ml from by
            rw [metraje_doble]
            exact fun hc =>
              hlt ((mul_lt_mul_left (by norm_num : (0:ℚ) < 2)).mp hc))]
          simp [hsm]

lemma foldl_paso2_doble (alto ancho : ℚ) (u : ℤ) (zs : List ℤ) :
    ∀ st : Paso2State,
      zs.foldl (paso2Step alto ancho (2 * u)) { st with mejor := st.mejor.map escalaMejor } =
        { zs.foldl (paso2Step alto ancho u) st with
          mejor := (zs.foldl (paso2Step alto ancho u) st).mejor.map escalaMejor } := by
  induction zs with
  | nil => intro st; rfl
  | cons z zs ih =>
    intro st
    simp only [List.foldl_cons, paso2Step_doble]
    exact ih (paso2Step alto ancho u st z)

lemma paso2_doble (alto ancho : ℚ) (u : ℤ) :
    paso2 alto ancho (2 * u) =
      { paso2 alto ancho u with
        mejor := (paso2 alto ancho u).mejor.map escalaMejor } := by
  have h := foldl_paso2_doble alto ancho u CILINDROS_FB ⟨none, none, none⟩
  simpa [paso2] using h

/-! ### Claims -/

/-- Claim C1, counterexample: for the label 1000 mm × 50 mm (positive height
and width), quantity 10, no preferred roll width, no cylinder candidate is
vertically feasible and no second pass applies, yet `obtener_z_sugerido`
returns Python `None` — not an `Infeasibility` value built from the
vertical-infeasibility diagnostic.  This refutes the claim that the selector
never returns nothing for a feasibility problem. -/
theorem C1_counterexample : obtener_z_sugerido 1000 50 10 none = .nada := by
  with_unfolding_all decide

/-- Claim C1, amended: the cylinder selector returns a `Solution`, a
structured `Infeasibility` (which always carries a reason), or nothing;
when no cylinder candidate is vertically feasible it returns nothing
(Python `None`) — the vertical-infeasibility diagnostic is remembered
during the scan but never returned. -/
theorem C1_amended (alto ancho : ℚ) (u : ℤ) (ro : Option ℚ)
    (h0 : 0 < alto) (h1 : 0 < ancho) :
    ((∀ z ∈ CILINDROS_FB, (evaluar_z_uniforme z alto GAP_VERTICAL_OBJETIVO GAP_VERTICAL_MIN
        GAP_VERTICAL_MAX MAX_REPETICIONES_VERTICALES).valido = false) →
      obtener_z_sugerido alto ancho u ro = .nada) ∧
    (∀ zf w mo, obtener_z_sugerido alto ancho u ro = .imposible zf w mo → mo.isSome) := by
  constructor
  · intro hv
    have hp1 := foldl_paso1_invalido alto ancho u (ro.getD ROLLO_BASE_MM) CILINDROS_FB
      ⟨none, none, none⟩ hv
    have hp2 := foldl_paso2_invalido alto ancho u CILINDROS_FB ⟨none, none, none⟩ hv
    simp only [obtener_z_sugerido, paso1, paso2] at hp1 hp2 ⊢
    rw [hp1.1, hp2, hp1.2]
    by_cases hw : ro.getD ROLLO_BASE_MM ≠ ROLLO_BASE_MM
    · rw [if_pos hw]
    · rw [if_neg hw]
  · intro zf w mo hres
    simp only [obtener_z_sugerido] at hres
    rcases hm : (paso1 alto ancho u (ro.getD ROLLO_BASE_MM)).mejor with _ | m
    · rw [hm] at hres
      by_cases hw : ro.getD ROLLO_BASE_MM ≠ ROLLO_BASE_MM
      · rw [if_pos hw] at hres
        rcases hm2 : (paso2 alto ancho u).mejor with _ | m2
        · rw [hm2] at hres
          rcases hf2 : (paso2 alto ancho u).z_fallback_330 with _ | zf2
          · rw [hf2] at hres
            rcases hfb : (paso1 alto ancho u (ro.getD ROLLO_BASE_MM)).z_fallback with _ | zfb
            · rw [hfb] at hres
              cases hmo : (paso1 alto ancho u (ro.getD ROLLO_BASE_MM)).motivo <;>
                rw [hmo] at hres <;> exact absurd hres (by simp)
            · rw [hfb] at hres
              cases hmo : (paso1 alto ancho u (ro.getD ROLLO_BASE_MM)).motivo <;>
                rw [hmo] at hres
              · exact absurd hres (by simp)
              · rw [ResultadoZ.imposible.injEq] at hres
                rw [← hres.2.2]
                simp
          · rw [hf2] at hres
            rw [ResultadoZ.imposible.injEq] at hres
            rw [← hres.2.2]
            have hinv := foldl_paso2_fb_motivo alto ancho u CILINDROS_FB ⟨none, none, none⟩
              (by simp)
            simp only [paso2] at hf2 ⊢
            exact hinv (by rw [hf2]; rfl)
        · rw [hm2] at hres
          exact absurd hres (by simp)
      · rw [if_neg hw] at hres
        rcases hfb : (paso1 alto ancho u (ro.getD ROLLO_BASE_MM)).z_fallback with _ | zfb
        · rw [hfb] at hres
          cases hmo : (paso1 alto ancho u (ro.getD ROLLO_BASE_MM)).motivo <;>
            rw [hmo] at hres <;> exact absurd hres (by simp)
        · rw [hfb] at hres
          cases hmo : (paso1 alto ancho u (ro.getD ROLLO_BASE_MM)).motivo <;>
            rw [hmo] at hres
          · exact absurd hres (by simp)
          · rw [ResultadoZ.imposible.injEq] at hres
            rw [← hres.2.2]
            simp
    · rw [hm] at hres
      exact absurd hres (by simp)

/-- Claim C1, witness for the amended theorem at a concrete input: the
label 600 mm × 40 mm is vertically infeasible on every catalog cylinder,
and the selector returns nothing. -/
theorem C1_witness : obtener_z_sugerido 600 40 7 (some 330) = .nada :=
  (C1_amended 600 40 7 (some 330) (by norm_num) (by norm_num)).1
    (by with_unfolding_all decide)

/-- Claim C2, counterexample: for cylinder 60 and label height 190 mm (with
the engine's gap constants) the evaluator reports feasible with
`repeats = 1` and clamped gap `2.5`, but `repeats × height + repeats × gap`
exceeds the circumference `190.5` by exactly 2 mm — far beyond floating
tolerance — because the raw gap `0.5` was clamped up to `gap_min`. -/
theorem C2_counterexample :
    (evaluar_z_uniforme 60 190 (27/10) (5/2) 20 8).valido = true ∧
    (evaluar_z_uniforme 60 190 (27/10) (5/2) 20 8).n = 1 ∧
    (evaluar_z_uniforme 60 190 (27/10) (5/2) 20 8).gap = 5/2 ∧
    ((evaluar_z_uniforme 60 190 (27/10) (5/2) 20 8).n : ℚ) * 190 +
        ((evaluar_z_uniforme 60 190 (27/10) (5/2) 20 8).n : ℚ) *
          (evaluar_z_uniforme 60 190 (27/10) (5/2) 20 8).gap ≠
      (evaluar_z_uniforme 60 190 (27/10) (5/2) 20 8).desarrollo_mm ∧
    ((evaluar_z_uniforme 60 190 (27/10) (5/2) 20 8).n : ℚ) * 190 +
        ((evaluar_z_uniforme 60 190 (27/10) (5/2) 20 8).n : ℚ) *
          (evaluar_z_uniforme 60 190 (27/10) (5/2) 20 8).gap -
        (evaluar_z_uniforme 60 190 (27/10) (5/2) 20 8).desarrollo_mm = 2 := by
  with_unfolding_all decide

/-- Claim C2, amended: whenever the evaluator reports feasible for a label of
positive height, `repeats ≥ 1`; for `repeats > 1` the exact identity
`repeats × height + repeats × gap = circumference` holds and the gap lies in
`[gap_min, gap_max]`; for `repeats = 1` the reported gap is
`max (circumference − height) gap_min` (so it is at least `gap_min`, but the
identity fails whenever `circumference − height < gap_min`). -/
theorem C2_amended (z : ℤ) (alto gap_obj gap_min gap_max : ℚ) (max_n : ℕ) (halto : 0 < alto)
    (hval : (evaluar_z_uniforme z alto gap_obj gap_min gap_max max_n).valido = true) :
    1 ≤ (evaluar_z_uniforme z alto gap_obj gap_min gap_max max_n).n ∧
    (1 < (evaluar_z_uniforme z alto gap_obj gap_min gap_max max_n).n →
      ((evaluar_z_uniforme z alto gap_obj gap_min gap_max max_n).n : ℚ) * alto +
        ((evaluar_z_uniforme z alto gap_obj gap_min gap_max max_n).n : ℚ) *
          (evaluar_z_uniforme z alto gap_obj gap_min gap_max max_n).gap =
        (evaluar_z_uniforme z alto gap_obj gap_min gap_max max_n).desarrollo_mm ∧
      gap_min ≤ (evaluar_z_uniforme z alto gap_obj gap_min gap_max max_n).gap ∧
      (evaluar_z_uniforme z alto gap_obj gap_min gap_max max_n).gap ≤ gap_max) ∧
    ((evaluar_z_uniforme z alto gap_obj gap_min gap_max max_n).n = 1 →
      (evaluar_z_uniforme z alto gap_obj gap_min gap_max max_n).gap =
        max ((z : ℚ) * FACTOR_CILINDRO_A_MM - alto) gap_min ∧
      gap_min ≤ (evaluar_z_uniforme z alto gap_obj gap_min gap_max max_n).gap) := by
  by_cases hd : (z : ℚ) * FACTOR_CILINDRO_A_MM < alto
  · exfalso
    have hfalse : (evaluar_z_uniforme z alto gap_obj gap_min gap_max max_n).valido = false := by
      simp [evaluar_z_uniforme, if_pos hd]
    rw [hfalse] at hval
    exact absurd hval (by simp)
  · have hspec := scanZ_spec ((z : ℚ) * FACTOR_CILINDRO_A_MM) alto gap_obj gap_min gap_max
      max_n halto max_n 1 none (by omega) le_rfl
      (Or.inl ⟨rfl, fun k hk hF => absurd hF.1 (by omega)⟩)
    rcases hscan : scanZ ((z : ℚ) * FACTOR_CILINDRO_A_MM) alto gap_obj gap_min gap_max
        max_n 1 none with _ | ⟨ns, gs, ds⟩
    · exfalso
      have hfalse : (evaluar_z_uniforme z alto gap_obj gap_min gap_max max_n).valido = false := by
        simp [evaluar_z_uniforme, if_neg hd, hscan]
      rw [hfalse] at hval
      exact absurd hval (by simp)
    · rw [hscan] at hspec
      rcases hspec with ⟨hm, _⟩ | ⟨nb, gb, db, hm, hF, hgb, hbest⟩
      · exact absurd hm (by simp)
      · obtain ⟨e1, e2, e3⟩ : ns = nb ∧ gs = gb ∧ ds = db := by
          simpa using hm
        subst e1
        subst e2
        subst e3
        have hn : (evaluar_z_uniforme z alto gap_obj gap_min gap_max max_n).n = ns := by
          simp [evaluar_z_uniforme, if_neg hd, hscan]
        have hg : (evaluar_z_uniforme z alto gap_obj gap_min gap_max max_n).gap = gs := by
          simp [evaluar_z_uniforme, if_neg hd, hscan]
        have hdes : (evaluar_z_uniforme z alto gap_obj gap_min gap_max max_n).desarrollo_mm =
            (z : ℚ) * FACTOR_CILINDRO_A_MM := by
          simp [evaluar_z_uniforme, if_neg hd, hscan]
        rw [hn, hg, hdes]
        have hns : 0 < ns := hF.1
        have hnsq : (ns : ℚ) ≠ 0 := by
          exact_mod_cast Nat.pos_iff_ne_zero.mp hns
        refine ⟨hF.1, ?_, ?_⟩
        · intro h1n
          have hne1 : ¬ns = 1 := by omega
          rw [hgb, gapAjustado, if_neg hne1]
          refine ⟨?_, hF.2.2.2.2 h1n⟩
          rw [gapCrudo]
          field_simp
        · intro h1
          subst h1
          rw [hgb, gapAjustado, if_pos rfl, gapCrudo]
          constructor
          · norm_num
          · exact le_max_right _ _

/-- Claim C2, witness: the amended invariant instantiated at cylinder 97,
label height 50, and the engine's gap constants (the evaluator picks
`repeats = 5`, gap `11.595`). -/
theorem C2_witness :
    1 ≤ (evaluar_z_uniforme 97 50 (27/10) (5/2) 20 8).n ∧
    (1 < (evaluar_z_uniforme 97 50 (27/10) (5/2) 20 8).n →
      ((evaluar_z_uniforme 97 50 (27/10) (5/2) 20 8).n : ℚ) * 50 +
        ((evaluar_z_uniforme 97 50 (27/10) (5/2) 20 8).n : ℚ) *
          (evaluar_z_uniforme 97 50 (27/10) (5/2) 20 8).gap =
        (evaluar_z_uniforme 97 50 (27/10) (5/2) 20 8).desarrollo_mm ∧
      (5/2 : ℚ) ≤ (evaluar_z_uniforme 97 50 (27/10) (5/2) 20 8).gap ∧
      (evaluar_z_uniforme 97 50 (27/10) (5/2) 20 8).gap ≤ 20) ∧
    ((evaluar_z_uniforme 97 50 (27/10) (5/2) 20 8).n = 1 →
      (evaluar_z_uniforme 97 50 (27/10) (5/2) 20 8).gap =
        max ((97 : ℚ) * FACTOR_CILINDRO_A_MM - 50) (5/2) ∧
      (5/2 : ℚ) ≤ (evaluar_z_uniforme 97 50 (27/10) (5/2) 20 8).gap) :=
  C2_amended 97 50 (27/10) (5/2) 20 8 (by norm_num) (by with_unfolding_all decide)

/-- Claim C3, counterexample: for cylinder 60 and label height 189 mm the
only feasible pair in the claim's sense is `(1, 1.5)` (raw gap
`(190.5 − 189) / 1 = 1.5`), but the evaluator returns gap `2.5`, not the
pair's gap: the `repeats = 1` gap is clamped up to `gap_min`. -/
theorem C3_counterexample :
    (evaluar_z_uniforme 60 189 (27/10) (5/2) 20 8).valido = true ∧
    (evaluar_z_uniforme 60 189 (27/10) (5/2) 20 8).n = 1 ∧
    gapCrudo ((60 : ℚ) * FACTOR_CILINDRO_A_MM) 189 1 = 3/2 ∧
    (evaluar_z_uniforme 60 189 (27/10) (5/2) 20 8).gap ≠
      gapCrudo ((60 : ℚ) * FACTOR_CILINDRO_A_MM) 189
        (evaluar_z_uniforme 60 189 (27/10) (5/2) 20 8).n := by
  with_unfolding_all decide

/-- Claim C3, amended: if the circumference is below the label height the
result is infeasible with no further search; otherwise the evaluator is
feasible exactly when the claim's feasible set is non-empty, returns the
repeat count that maximizes repeats over that set (ties cannot arise: each
repeat count contributes one candidate pair), and reports the winning
pair's gap except for `repeats = 1`, where the gap is clamped up to
`gap_min`. -/
theorem C3_amended (z : ℤ) (alto gap_obj gap_min gap_max : ℚ) (max_n : ℕ) (halto : 0 < alto) :
    ((z : ℚ) * FACTOR_CILINDRO_A_MM < alto →
      (evaluar_z_uniforme z alto gap_obj gap_min gap_max max_n).valido = false) ∧
    (alto ≤ (z : ℚ) * FACTOR_CILINDRO_A_MM →
      ((evaluar_z_uniforme z alto gap_obj gap_min gap_max max_n).valido = true →
        FeasN ((z : ℚ) * FACTOR_CILINDRO_A_MM) alto gap_min gap_max max_n
            (evaluar_z_uniforme z alto gap_obj gap_min gap_max max_n).n ∧
        (∀ k, FeasN ((z : ℚ) * FACTOR_CILINDRO_A_MM) alto gap_min gap_max max_n k →
          k ≤ (evaluar_z_uniforme z alto gap_obj gap_min gap_max max_n).n) ∧
        (evaluar_z_uniforme z alto gap_obj gap_min gap_max max_n).gap =
          gapAjustado ((z : ℚ) * FACTOR_CILINDRO_A_MM) alto gap_min
            (evaluar_z_uniforme z alto gap_obj gap_min gap_max max_n).n) ∧
      ((evaluar_z_uniforme z alto gap_obj gap_min gap_max max_n).valido = false →
        ∀ k, ¬FeasN ((z : ℚ) * FACTOR_CILINDRO_A_MM) alto gap_min gap_max max_n k)) := by
  constructor
  · intro hd
    simp [evaluar_z_uniforme, if_pos hd]
  · intro hle
    have hd : ¬((z : ℚ) * FACTOR_CILINDRO_A_MM < alto) := not_lt.mpr hle
    have hspec := scanZ_spec ((z : ℚ) * FACTOR_CILINDRO_A_MM) alto gap_obj gap_min gap_max
      max_n halto max_n 1 none (by omega) le_rfl
      (Or.inl ⟨rfl, fun k hk hF => absurd hF.1 (by omega)⟩)
    rcases hscan : scanZ ((z : ℚ) * FACTOR_CILINDRO_A_MM) alto gap_obj gap_min gap_max
        max_n 1 none with _ | ⟨ns, gs, ds⟩
    · rw [hscan] at hspec
      rcases hspec with ⟨_, hall⟩ | ⟨nb, gb, db, hm, _⟩
      · constructor
        · intro hv
          have : (evaluar_z_uniforme z alto gap_obj gap_min gap_max max_n).valido = false := by
            simp [evaluar_z_uniforme, if_neg hd, hscan]
          rw [this] at hv
          exact absurd hv (by simp)
        · intro _
          exact hall
      · exact absurd hm (by simp)
    · rw [hscan] at hspec
      rcases hspec with ⟨hm, _⟩ | ⟨nb, gb, db, hm, hF, hgb, hbest⟩
      · exact absurd hm (by simp)
      · obtain ⟨e1, e2, e3⟩ : ns = nb ∧ gs = gb ∧ ds = db := by
          simpa using hm
        subst e1
        subst e2
        subst e3
        have hn : (evaluar_z_uniforme z alto gap_obj gap_min gap_max max_n).n = ns := by
          simp [evaluar_z_uniforme, if_neg hd, hscan]
        have hg : (evaluar_z_uniforme z alto gap_obj gap_min gap_max max_n).gap = gs := by
          simp [evaluar_z_uniforme, if_neg hd, hscan]
        constructor
        · intro _
          rw [hn, hg]
          exact ⟨hF, hbest, hgb⟩
        · intro hv
          have : (evaluar_z_uniforme z alto gap_obj gap_min gap_max max_n).valido = true := by
            simp [evaluar_z_uniforme, if_neg hd, hscan]
          rw [this] at hv
          exact absurd hv (by simp)

/-- Claim C3, witness: the clamped-gap characterization of the amended claim
at cylinder 102, label height 60 (the evaluator picks `repeats = 5`), with
every hypothesis discharged by evaluation. -/
theorem C3_witness :
    (evaluar_z_uniforme 102 60 (27/10) (5/2) 20 8).gap =
      gapAjustado ((102 : ℚ) * FACTOR_CILINDRO_A_MM) 60 (5/2)
        (evaluar_z_uniforme 102 60 (27/10) (5/2) 20 8).n :=
  (((C3_amended 102 60 (27/10) (5/2) 20 8 (by norm_num)).2
      (by with_unfolding_all decide)).1 (by with_unfolding_all decide)).2.2

/-- Modelled from the wording of claim C6 (spec §4.2), for comparison with
the source function: usable width is the roll width minus the flag margin
clamped to ≥ 0 and `across = ⌊usable / (width + gap)⌋`; if that is 0, retry
with the full roll width; if still 0 but `usable ≥ width`, force one column
whose gap is the entire one-sided leftover `usable − width`; otherwise 0
across.  For `across > 1` the gap is the leftover split over `across − 1`
interior gaps; a non-degenerate single column reports a null gap; utilization
is `across × width / usable × 100`, zero when `usable ≤ 0`. -/
def evaluarRolloSegunSpec (ancho_mm ancho_etq gap_h bandera_mm : ℚ) : ResultadoRollo :=
  let u1 := max 0 (ancho_mm - bandera_mm)
  let a1 : ℤ := ⌊u1 / (ancho_etq + gap_h)⌋
  let u := if a1 = 0 then ancho_mm else u1
  let a : ℤ := if a1 = 0 then ⌊ancho_mm / (ancho_etq + gap_h)⌋ else a1
  let aprov : ℤ → ℚ := fun k => if 0 < u then (k : ℚ) * ancho_etq / u * 100 else 0
  if a = 0 then
    if ancho_etq ≤ u then ⟨1, some (u - ancho_etq), aprov 1, some u⟩
    else ⟨0, none, aprov 0, some u⟩
  else if 1 < a then
    ⟨a, some ((u - (a : ℚ) * ancho_etq) / ((a : ℚ) - 1)), aprov a, some u⟩
  else ⟨a, none, aprov a, some u⟩

/-- Claim C6 (confirmed): for every positive roll width, label width and gap
(and any flag margin), `evaluar_rollo_estandar` computes exactly the
algorithm the claim describes — flag-margin attempt, full-width retry,
forced single column with one-sided gap, interior-split gap for
`across > 1`, and the utilization formula. -/
theorem C6_confirmado (w lw g b : ℚ) (hw : 0 < w) (hl : 0 < lw) (hg : 0 < g) :
    evaluar_rollo_estandar w lw g b = evaluarRolloSegunSpec w lw g b := by
  have hp : 0 < lw + g := by linarith
  have ha1 : (0 : ℤ) ≤ ⌊max 0 (w - b) / (lw + g)⌋ :=
    Int.floor_nonneg.mpr (div_nonneg (le_max_left _ _) hp.le)
  have ha2 : (0 : ℤ) ≤ ⌊w / (lw + g)⌋ :=
    Int.floor_nonneg.mpr (div_nonneg hw.le hp.le)
  have hcov : ∀ u : ℚ, 0 ≤ u → ((⌊u / (lw + g)⌋ : ℤ) : ℚ) * lw ≤ u := by
    intro u hu
    have hnn : (0 : ℤ) ≤ ⌊u / (lw + g)⌋ := Int.floor_nonneg.mpr (div_nonneg hu hp.le)
    have hcn : (0 : ℚ) ≤ ((⌊u / (lw + g)⌋ : ℤ) : ℚ) := by exact_mod_cast hnn
    have hfl : ((⌊u / (lw + g)⌋ : ℤ) : ℚ) ≤ u / (lw + g) := Int.floor_le _
    have h1 : ((⌊u / (lw + g)⌋ : ℤ) : ℚ) * (lw + g) ≤ u := (le_div_iff₀ hp).mp hfl
    have h2 : ((⌊u / (lw + g)⌋ : ℤ) : ℚ) * lw ≤ ((⌊u / (lw + g)⌋ : ℤ) : ℚ) * (lw + g) :=
      mul_le_mul_of_nonneg_left (by linarith) hcn
    linarith
  simp only [evaluar_rollo_estandar, evaluarRolloSegunSpec, if_neg (not_le.mpr hw),
    if_neg (not_le.mpr hp), max_eq_right ha1, max_eq_right ha2]
  by_cases hz1 : ⌊max 0 (w - b) / (lw + g)⌋ = 0
  · simp only [hz1]
    by_cases hz2 : ⌊w / (lw + g)⌋ = 0
    · simp only [hz2]
      by_cases hfit : lw ≤ w
      · simp [hfit, max_eq_right (sub_nonneg.mpr hfit)]
      · simp [hfit]
    · have hz2' : ¬(⌊w / (lw + g)⌋ ≤ 0) := by omega
      simp only [le_refl, if_true, eq_self_iff_true, max_self]
      rw [if_neg (show ¬(⌊w / (lw + g)⌋ ≤ 0 ∧ lw ≤ w) from fun hc => hz2' hc.1),
        if_neg hz2]
      by_cases h1a : 1 < ⌊w / (lw + g)⌋
      · have hG : (0 : ℚ) ≤ w - ((⌊w / (lw + g)⌋ : ℤ) : ℚ) * lw := by
          linarith [hcov w hw.le]
        rw [if_pos h1a, if_pos h1a, max_eq_right hG]
      · rw [if_neg h1a, if_neg h1a]
  · have hz1' : ¬(⌊max 0 (w - b) / (lw + g)⌋ ≤ 0) := by omega
    simp only [if_neg hz1', if_neg hz1,
      if_neg (show ¬(⌊max 0 (w - b) / (lw + g)⌋ ≤ 0 ∧ lw ≤ max 0 (w - b)) from
        fun hc => hz1' hc.1)]
    by_cases h1a : 1 < ⌊max 0 (w - b) / (lw + g)⌋
    · have hG : (0 : ℚ) ≤ max 0 (w - b) - ((⌊max 0 (w - b) / (lw + g)⌋ : ℤ) : ℚ) * lw := by
        linarith [hcov (max 0 (w - b)) (le_max_left 0 (w - b))]
      simp [if_pos h1a, max_eq_right hG]
    · simp [if_neg h1a]

/-- Claim C6, witness: the source evaluator and the specification algorithm
coincide on the standard 330 mm roll with a 30 mm label, the 2.7 mm target
gap and the 20 mm flag margin. -/
theorem C6_witness :
    evaluar_rollo_estandar 330 30 (27/10) 20 = evaluarRolloSegunSpec 330 30 (27/10) 20 :=
  C6_confirmado 330 30 (27/10) 20 (by norm_num) (by norm_num) (by norm_num)

/-- Claim C8, counterexample: with a negative gap parameter (`-5`) the step
`width + gap` is smaller than the label width, and on a 120 mm roll with a
10 mm label the evaluator reports `across = 20` with usable width 100, so
`across × width = 200 > 100`: the coverage invariant as universally stated
(for every gap) fails. -/
theorem C8_counterexample :
    (evaluar_rollo_estandar 120 10 (-5) 20).etq_eje = 20 ∧
    (evaluar_rollo_estandar 120 10 (-5) 20).ancho_util = some 100 ∧
    ¬(((evaluar_rollo_estandar 120 10 (-5) 20).etq_eje : ℚ) * 10 ≤ 100) := by
  with_unfolding_all decide

/-- Claim C8, amended: for every roll width, label width and *non-negative*
gap (the engine always passes the fixed gap 2.7), whenever the result
reports a usable width `u`, `across × width ≤ u` — in the flag-margin case,
the full-width retry case, and the forced single-column case alike. -/
theorem C8_amended (w lw g b : ℚ) (hg : 0 ≤ g) :
    ∀ u, (evaluar_rollo_estandar w lw g b).ancho_util = some u →
      ((evaluar_rollo_estandar w lw g b).etq_eje : ℚ) * lw ≤ u := by
  intro u hu
  by_cases hw : w ≤ 0
  · have hnone : (evaluar_rollo_estandar w lw g b).ancho_util = none := by
      simp [evaluar_rollo_estandar, if_pos hw]
    rw [hnone] at hu
    exact absurd hu (by simp)
  · by_cases hp : lw + g ≤ 0
    · have hnone : (evaluar_rollo_estandar w lw g b).ancho_util = none := by
        simp [evaluar_rollo_estandar, if_neg hw, if_pos hp]
      rw [hnone] at hu
      exact absurd hu (by simp)
    · obtain ⟨v, hv0, hva, hcase⟩ := rollo_estructura w lw g b (not_le.mp hw) (not_le.mp hp)
      rw [hva] at hu
      obtain rfl : v = u := Option.some.inj hu
      rcases hcase with ⟨he, hlw, _⟩ | ⟨he, hnn, _⟩
      · rw [he]
        push_cast
        linarith
      · rw [he]
        have hcn : (0 : ℚ) ≤ ((⌊v / (lw + g)⌋ : ℤ) : ℚ) := by exact_mod_cast hnn
        by_cases hlwpos : 0 < lw
        · have hfl : ((⌊v / (lw + g)⌋ : ℤ) : ℚ) ≤ v / (lw + g) := Int.floor_le _
          have h1 : ((⌊v / (lw + g)⌋ : ℤ) : ℚ) * (lw + g) ≤ v :=
            (le_div_iff₀ (not_le.mp hp)).mp hfl
          have h2 : ((⌊v / (lw + g)⌋ : ℤ) : ℚ) * lw ≤
              ((⌊v / (lw + g)⌋ : ℤ) : ℚ) * (lw + g) :=
            mul_le_mul_of_nonneg_left (by linarith) hcn
          linarith
        · have h3 := mul_nonneg hcn (neg_nonneg.mpr (not_lt.mp hlwpos))
          rw [mul_neg] at h3
          linarith

/-- Claim C8, witness: the amended coverage invariant at the standard roll
(330 mm), a 30 mm label and the engine's horizontal gap: `9 × 30 ≤ 310`. -/
theorem C8_witness :
    ((evaluar_rollo_estandar 330 30 (27/10) 20).etq_eje : ℚ) * 30 ≤ 310 :=
  C8_amended 330 30 (27/10) 20 (by norm_num) 310 (by with_unfolding_all decide)

/-- Claim C10 (confirmed): the horizontal evaluator is total on degenerate
inputs — a non-positive roll width, or a label width and gap of non-positive
sum, yields `across = 0`, a null gap and zero utilization (with no usable
width reported) — and past those guards the usable width is positive (so the
utilization divisor is positive when that division runs) while a reported
gap implies `across ≥ 1` (the `across − 1` split division runs only for
`across > 1`). -/
theorem C10_degenerado (w lw g b : ℚ) :
    (w ≤ 0 ∨ lw + g ≤ 0 → evaluar_rollo_estandar w lw g b = ⟨0, none, 0, none⟩) ∧
    (0 < w → 0 < lw + g →
      ∃ u, (evaluar_rollo_estandar w lw g b).ancho_util = some u ∧ 0 < u) ∧
    (∀ q, (evaluar_rollo_estandar w lw g b).gap_entre = some q →
      1 ≤ (evaluar_rollo_estandar w lw g b).etq_eje) := by
  refine ⟨?_, ?_, ?_⟩
  · rintro (h | h)
    · simp [evaluar_rollo_estandar, if_pos h]
    · by_cases hw : w ≤ 0
      · simp [evaluar_rollo_estandar, if_pos hw]
      · simp [evaluar_rollo_estandar, if_neg hw, if_pos h]
  · intro hw hp
    obtain ⟨u, hu0, hua, _⟩ := rollo_estructura w lw g b hw hp
    exact ⟨u, hua, hu0⟩
  · intro q hq
    by_cases hw : w ≤ 0
    · have hnone : (evaluar_rollo_estandar w lw g b).gap_entre = none := by
        simp [evaluar_rollo_estandar, if_pos hw]
      rw [hnone] at hq
      exact absurd hq (by simp)
    · by_cases hp : lw + g ≤ 0
      · have hnone : (evaluar_rollo_estandar w lw g b).gap_entre = none := by
          simp [evaluar_rollo_estandar, if_neg hw, if_pos hp]
        rw [hnone] at hq
        exact absurd hq (by simp)
      · obtain ⟨u, _, _, hcase⟩ := rollo_estructura w lw g b (not_le.mp hw) (not_le.mp hp)
        rcases hcase with ⟨he, _, _⟩ | ⟨he, hnn, hgap⟩
        · rw [he]
        · rcases hgap with hnone | hlt
          · rw [hnone] at hq
            exact absurd hq (by simp)
          · omega

/-- Claim C10, witness: both degenerate guards and the gap-divisor fact
evaluated at concrete inputs through the theorem. -/
theorem C10_witness :
    evaluar_rollo_estandar (-5) 10 3 20 = ⟨0, none, 0, none⟩ ∧
      evaluar_rollo_estandar 100 (-8) 3 20 = ⟨0, none, 0, none⟩ ∧
      1 ≤ (evaluar_rollo_estandar 100 30 (27/10) 20).etq_eje :=
  ⟨(C10_degenerado (-5) 10 3 20).1 (Or.inl (by norm_num)),
    (C10_degenerado 100 (-8) 3 20).1 (Or.inr (by norm_num)),
    (C10_degenerado 100 30 (27/10) 20).2.2 20 (by with_unfolding_all decide)⟩

/-- Claim C7 (confirmed): `calcular_metraje_material` returns all-zero usage
when `labels_per_revolution ≤ 0`, circumference `≤ 0` or roll width `≤ 0`,
and otherwise `revolutions = quantity / labels_per_revolution`,
`linear_meters = (revolutions × circumference + revolutions × 0.75) / 1000`
and `area_m2 = linear_meters × (roll_width / 1000)`. -/
theorem C7_metraje (unidades etq_repeat : ℤ) (desarrollo_mm ancho_rollo_mm : ℚ) :
    (etq_repeat ≤ 0 ∨ desarrollo_mm ≤ 0 ∨ ancho_rollo_mm ≤ 0 →
      calcular_metraje_material unidades etq_repeat desarrollo_mm ancho_rollo_mm
        AJUSTE_DESARROLLO_REP_MM = ⟨0, 0, 0⟩) ∧
    (0 < etq_repeat → 0 < desarrollo_mm → 0 < ancho_rollo_mm →
      (calcular_metraje_material unidades etq_repeat desarrollo_mm ancho_rollo_mm
          AJUSTE_DESARROLLO_REP_MM).repeticiones_reales = (unidades : ℚ) / (etq_repeat : ℚ) ∧
        (calcular_metraje_material unidades etq_repeat desarrollo_mm ancho_rollo_mm
            AJUSTE_DESARROLLO_REP_MM).ml =
          ((unidades : ℚ) / (etq_repeat : ℚ) * desarrollo_mm +
            (unidades : ℚ) / (etq_repeat : ℚ) * 0.75) / 1000 ∧
        (calcular_metraje_material unidades etq_repeat desarrollo_mm ancho_rollo_mm
            AJUSTE_DESARROLLO_REP_MM).m2 =
          (calcular_metraje_material unidades etq_repeat desarrollo_mm ancho_rollo_mm
            AJUSTE_DESARROLLO_REP_MM).ml * (ancho_rollo_mm / 1000)) := by
  constructor
  · intro h
    simp only [calcular_metraje_material, if_pos h]
  · intro h1 h2 h3
    have hg : ¬(etq_repeat ≤ 0 ∨ desarrollo_mm ≤ 0 ∨ ancho_rollo_mm ≤ 0) := by
      push_neg
      exact ⟨h1, h2, h3⟩
    unfold calcular_metraje_material
    rw [if_neg hg]
    exact ⟨rfl, rfl, rfl⟩

/-- Claim C7, witness: both branches of the calculator evaluated at concrete
inputs through the theorem. -/
theorem C7_metraje_witness :
    calcular_metraje_material 1000 0 308 330 AJUSTE_DESARROLLO_REP_MM = ⟨0, 0, 0⟩ ∧
      (calcular_metraje_material 1000 6 308 330
          AJUSTE_DESARROLLO_REP_MM).repeticiones_reales = (1000 : ℚ) / 6 :=
  ⟨(C7_metraje 1000 0 308 330).1 (by norm_num),
    ((C7_metraje 1000 6 308 330).2 (by norm_num) (by norm_num) (by norm_num)).1⟩

/-- Claim C4 (confirmed): when the preferred roll width is non-standard,
pass 1 finds no solution, and the standard-roll pass has one, the outcome is
a solution flagged `used_fallback_roll = true` with `roll_width_used = 330`;
a pass-1 solution is returned as-is (unflagged, pass 2 never entered); and
with the standard preferred width the fallback flag is never set (pass 2 is
entered only when pass 1 failed and the width differs from the standard). -/
theorem C4_rollo_alternativo (alto ancho : ℚ) (u : ℤ) (w : ℚ) :
    (w ≠ ROLLO_BASE_MM → (paso1 alto ancho u w).mejor = none →
      (paso2 alto ancho u).mejor.isSome = true →
      esSolucion (obtener_z_sugerido alto ancho u (some w)) = true ∧
      usaRolloAlternativo (obtener_z_sugerido alto ancho u (some w)) = true ∧
      anchoRolloUsado (obtener_z_sugerido alto ancho u (some w)) = some ROLLO_BASE_MM) ∧
    (∀ m, (paso1 alto ancho u w).mejor = some m →
      obtener_z_sugerido alto ancho u (some w) = .solucion m ∧
        m.rollo_alternativo = false) ∧
    (w = ROLLO_BASE_MM →
      usaRolloAlternativo (obtener_z_sugerido alto ancho u (some w)) = false) := by
  refine ⟨?_, ?_, ?_⟩
  · intro hw hm1 hm2
    rcases hm2' : (paso2 alto ancho u).mejor with _ | m2
    · rw [hm2'] at hm2
      exact absurd hm2 (by simp)
    · have hout : obtener_z_sugerido alto ancho u (some w) = .solucion m2 := by
        simp only [obtener_z_sugerido, Option.getD_some]
        rw [hm1, if_pos hw, hm2']
      have hflag := foldl_paso2_rollo alto ancho u CILINDROS_FB ⟨none, none, none⟩
        (by simp) m2 (by simpa [paso2] using hm2')
      rw [hout]
      exact ⟨rfl, hflag.1, by simp [anchoRolloUsado, hflag.2]⟩
  · intro m hm
    constructor
    · simp only [obtener_z_sugerido, Option.getD_some]
      rw [hm]
    · exact foldl_paso1_rollo alto ancho u w CILINDROS_FB ⟨none, none, none⟩ (by simp) m
        (by simpa [paso1] using hm)
  · intro hw
    simp only [obtener_z_sugerido, Option.getD_some]
    rcases hm : (paso1 alto ancho u w).mejor with _ | m
    · rw [if_neg (by rw [hw]; exact fun hc => hc rfl)]
      rcases hfb : (paso1 alto ancho u w).z_fallback with _ | zfb <;>
        rcases hmo : (paso1 alto ancho u w).motivo with _ | mo <;> rfl
    · have hflag := foldl_paso1_rollo alto ancho u w CILINDROS_FB ⟨none, none, none⟩
        (by simp) m (by simpa [paso1] using hm)
      simp [usaRolloAlternativo, hflag]

/-- Claim C4, witness: a 100 mm × 250 mm label on a detected 200 mm roll has
no pass-1 solution but fits the 330 mm standard roll, and the outcome is a
solution on the standard roll with the fallback flag set; with the standard
width as the preferred width, the fallback flag is never set. -/
theorem C4_witness :
    (esSolucion (obtener_z_sugerido 100 250 10 (some 200)) = true ∧
      usaRolloAlternativo (obtener_z_sugerido 100 250 10 (some 200)) = true ∧
      anchoRolloUsado (obtener_z_sugerido 100 250 10 (some 200)) = some ROLLO_BASE_MM) ∧
    usaRolloAlternativo (obtener_z_sugerido 50 30 100 (some 330)) = false :=
  ⟨(C4_rollo_alternativo 100 250 10 200).1 (by norm_num [ROLLO_BASE_MM])
      (by with_unfolding_all decide) (by with_unfolding_all decide),
    (C4_rollo_alternativo 50 30 100 330).2.2 rfl⟩

/-- Claim C5 (confirmed): doubling the quantity maps the outcome through
`escalaResultado`: the identical cylinder, repeats and across-count are
selected (infeasibility outcomes are unchanged), and revolutions,
`linear_meters` and `area_m2` double exactly — the running-best comparison
is invariant under the uniform scaling of per-candidate linear meters. -/
theorem C5_cantidad_doble (alto ancho : ℚ) (u : ℤ) (ro : Option ℚ) (hu : 1 ≤ u) :
    obtener_z_sugerido alto ancho (2 * u) ro =
      escalaResultado (obtener_z_sugerido alto ancho u ro) ∧
    ∀ m : Mejor, (escalaMejor m).z = m.z ∧ (escalaMejor m).n = m.n ∧
      (escalaMejor m).etq_eje = m.etq_eje ∧ (escalaMejor m).ml = 2 * m.ml ∧
      (escalaMejor m).m2 = 2 * m.m2 := by
  refine ⟨?_, fun m => ⟨rfl, rfl, rfl, rfl, rfl⟩⟩
  simp only [obtener_z_sugerido, paso1_doble, paso2_doble]
  rcases hm : (paso1 alto ancho u (ro.getD ROLLO_BASE_MM)).mejor with _ | m
  · simp only [hm, Option.map_none']
    by_cases hw : ro.getD ROLLO_BASE_MM ≠ ROLLO_BASE_MM
    · rw [if_pos hw, if_pos hw]
      rcases hm2 : (paso2 alto ancho u).mejor with _ | m2
      · simp only [hm2, Option.map_none']
        rcases hf2 : (paso2 alto ancho u).z_fallback_330 with _ | zf2 <;>
          rcases hfb : (paso1 alto ancho u (ro.getD ROLLO_BASE_MM)).z_fallback with _ | zfb <;>
            rcases hmo : (paso1 alto ancho u (ro.getD ROLLO_BASE_MM)).motivo with _ | mo <;>
              rfl
      · simp only [hm2, Option.map_some']
        rfl
    · rw [if_neg hw, if_neg hw]
      rcases hfb : (paso1 alto ancho u (ro.getD ROLLO_BASE_MM)).z_fallback with _ | zfb <;>
        rcases hmo : (paso1 alto ancho u (ro.getD ROLLO_BASE_MM)).motivo with _ | mo <;> rfl
  · simp only [hm, Option.map_some']
    rfl

/-- Claim C5, witness: the doubling relation for a 50 mm × 30 mm label at
quantities 5 and 10 on the default roll. -/
theorem C5_witness :
    obtener_z_sugerido 50 30 10 none = escalaResultado (obtener_z_sugerido 50 30 5 none) :=
  (C5_cantidad_doble 50 30 5 none (by norm_num)).1

/-- Claim C9 (confirmed): the caller substitutes quantity 1 for quantity 0
before invoking the engine, so the outcome for `quantity_to_produce = 0` is
identical — same cylinder, repeats, across-count, `linear_meters` and
`area_m2` — to the quantity-1 run. -/
theorem C9_cantidad_cero (alto ancho : ℚ) (ro : Option ℚ) :
    calcular_z_y_metraje alto ancho 0 ro = calcular_z_y_metraje alto ancho 1 ro := by
  have h : unidades_para_calculo 0 = unidades_para_calculo 1 := by
    simp [unidades_para_calculo]
  simp only [calcular_z_y_metraje, h]

end Unificacion
